import Mathlib

/-!
Verification development for the QR-code encoder/validator module
(`src/utils/qrCode.ts` of the Qr_code-V2 repository).

The TypeScript module is shallowly embedded: every validator and string
builder is translated into an executable Lean function operating on
`String`/`List Char`, with JavaScript semantics (truthiness of strings,
the `\s` whitespace class, `String.prototype.trim`) made explicit.
Fallible code (functions that `throw new Error(msg)`) is modelled with
`Except String`, the carried `String` being the message of the thrown
`Error` object.
-/

namespace QrV2

/-- Decidable equality for `Except`, so that concrete runs of the
embedded functions can be checked by `decide`. -/
instance {ε α : Type} [DecidableEq ε] [DecidableEq α] : DecidableEq (Except ε α) := fun x y =>
  match x, y with
  | .error e, .error f =>
    if h : e = f then .isTrue (by rw [h])
    else .isFalse (fun hc => h (by injection hc))
  | .ok a, .ok b =>
    if h : a = b then .isTrue (by rw [h])
    else .isFalse (fun hc => h (by injection hc))
  | .error _, .ok _ => .isFalse (fun hc => Except.noConfusion hc)
  | .ok _, .error _ => .isFalse (fun hc => Except.noConfusion hc)

/-- The ECMAScript whitespace class: the set matched by the regex class
`\s` and stripped by `String.prototype.trim` (WhiteSpace plus
LineTerminator code points). -/
def jsIsWs (c : Char) : Bool :=
  c.toNat == 9 || c.toNat == 10 || c.toNat == 11 || c.toNat == 12 ||
  c.toNat == 13 || c.toNat == 32 || c.toNat == 160 || c.toNat == 5760 ||
  (8192 ≤ c.toNat && c.toNat ≤ 8202) || c.toNat == 8232 || c.toNat == 8233 ||
  c.toNat == 8239 || c.toNat == 8287 || c.toNat == 12288 || c.toNat == 65279

/-- JavaScript `String.prototype.trim`: removes leading and trailing
whitespace (the `jsIsWs` class). -/
def jsTrim (s : String) : String :=
  String.mk (((s.data.dropWhile jsIsWs).reverse.dropWhile jsIsWs).reverse)

/-- The character class of the phone regex `/^[+\d\s-()]+$/` used by the
vCard and SMS validators: plus sign, ASCII digits, whitespace (`\s`),
hyphen, parentheses. -/
def phoneChar (c : Char) : Bool :=
  c.toNat == 43 || (48 ≤ c.toNat && c.toNat ≤ 57) || jsIsWs c ||
  c.toNat == 45 || c.toNat == 40 || c.toNat == 41

/-- `s.match(/^[+\d\s-()]+$/)` is non-null: the string is non-empty and
every character is in the permissive phone character set. -/
def phoneMatches (s : String) : Bool :=
  !s.data.isEmpty && s.data.all phoneChar

/-- One chunk of the email regex `[^\s@]+`: non-empty, no whitespace,
no `@`. -/
def emailChunk (l : List Char) : Bool :=
  !l.isEmpty && l.all (fun c => !jsIsWs c && !(c == '@'))

/-- `s.match(/^[^\s@]+@[^\s@]+\.[^\s@]+$/)` is non-null.  Since the
bracket classes exclude `@`, a match forces exactly one `@`; the part
after it must contain a `.` that is neither its first nor its last
character (splitting it into the two non-empty chunks `[^\s@]+`). -/
def emailMatches (s : String) : Bool :=
  match s.data.splitOn '@' with
  | [a, d] => emailChunk a && emailChunk d && (d.drop 1).dropLast.contains '.'
  | _ => false

/-- The data model of `src/types/index.ts` (`VCardData`): all fields are
strings. -/
structure VCardData where
  firstName : String
  lastName : String
  mobile : String
  phone : String
  workPhone : String
  fax : String
  email : String
  company : String
  jobTitle : String
  street : String
  city : String
  zip : String
  state : String
  country : String
  website : String
deriving DecidableEq

/-- `EmailData` of `src/types/index.ts`. -/
structure EmailData where
  email : String
  subject : String
  body : String
deriving DecidableEq

/-- `SMSData` of `src/types/index.ts`. -/
structure SMSData where
  phone : String
  message : String
deriving DecidableEq

/-- The `encryption` enum of `WiFiData`. -/
inductive Encryption where
  | WPA
  | WEP
  | nopass
deriving DecidableEq

/-- Template interpolation of the encryption enum value. -/
def Encryption.str : Encryption → String
  | .WPA => "WPA"
  | .WEP => "WEP"
  | .nopass => "nopass"

/-- `WiFiData` of `src/types/index.ts`. -/
structure WiFiData where
  ssid : String
  password : String
  encryption : Encryption
  hidden : Bool
deriving DecidableEq

/-- The `QRCodeParams` bundle handed to `generateQRCode`. -/
structure QRCodeParams where
  url : String
  vcardData : VCardData
  emailData : EmailData
  smsData : SMSData
  text : String
  wifiData : WiFiData

/-- `validateText` (qrCode.ts lines 69-73): throws unless the text is
non-empty after trimming (`!text?.trim()`). -/
def validateText (text : String) : Except String Unit :=
  if jsTrim text = "" then .error "Please enter some text"
  else .ok ()

/-- `validateWiFiData` (qrCode.ts lines 75-83). -/
def validateWiFiData (data : WiFiData) : Except String Unit :=
  if jsTrim data.ssid = "" then .error "Please enter a network name (SSID)"
  else if data.encryption ≠ .nopass ∧ jsTrim data.password = "" then
    .error "Please enter a network password"
  else .ok ()

/-- `generateWiFiString` (qrCode.ts lines 156-160): validates, then emits
the template `WIFI:T:${encryption};S:${ssid};P:${password}${hidden ? ';H:true' : ''};;`
with the raw (untrimmed, unescaped) field values. -/
def generateWiFiString (data : WiFiData) : Except String String :=
  match validateWiFiData data with
  | .error m => .error m
  | .ok _ =>
    .ok ("WIFI:T:" ++ data.encryption.str ++ ";S:" ++ data.ssid ++ ";P:" ++
      data.password ++ (if data.hidden then ";H:true" else "") ++ ";;")

/-- `validateSMSData` (qrCode.ts lines 59-67): presence of phone (after
trimming), then the phone regex on the raw value. -/
def validateSMSData (data : SMSData) : Except String Unit :=
  if jsTrim data.phone = "" then .error "Please enter a phone number"
  else if phoneMatches data.phone = false then .error "Please enter a valid phone number"
  else .ok ()

/-- `validateEmailData` (qrCode.ts lines 49-57): presence of email (after
trimming), then the email regex on the raw value. -/
def validateEmailData (data : EmailData) : Except String Unit :=
  if jsTrim data.email = "" then .error "Please enter an email address"
  else if emailMatches data.email = false then .error "Please enter a valid email address"
  else .ok ()

/-- Upper-case hexadecimal digit characters. -/
def hexDigits : List Char := ['0', '1', '2', '3', '4', '5', '6', '7', '8', '9', 'A', 'B', 'C', 'D', 'E', 'F']

/-- The hexadecimal digit character of the low nibble of `n`. -/
def hexDigit (n : Nat) : Char := hexDigits.getD (n % 16) '0'

/-- UTF-8 byte sequence of a Unicode scalar value. -/
def utf8Bytes (c : Char) : List Nat :=
  let n := c.toNat
  if n < 128 then [n]
  else if n < 2048 then [192 + n / 64, 128 + n % 64]
  else if n < 65536 then [224 + n / 4096, 128 + (n / 64) % 64, 128 + n % 64]
  else [240 + n / 262144, 128 + (n / 4096) % 64, 128 + (n / 64) % 64, 128 + n % 64]

/-- A percent-escape `%XY` for one byte. -/
def pctByte (b : Nat) : List Char := ['%', hexDigit (b / 16), hexDigit b]

/-- The characters `encodeURIComponent` leaves unescaped: ASCII
alphanumerics and `- _ . ! ~ * ( )` and the apostrophe (code 39). -/
def uriUnreserved (c : Char) : Bool :=
  (48 ≤ c.toNat && c.toNat ≤ 57) || (65 ≤ c.toNat && c.toNat ≤ 90) ||
  (97 ≤ c.toNat && c.toNat ≤ 122) || c.toNat == 45 || c.toNat == 95 ||
  c.toNat == 46 || c.toNat == 33 || c.toNat == 126 || c.toNat == 42 ||
  c.toNat == 39 || c.toNat == 40 || c.toNat == 41

/-- Encoding of a single character by `encodeURIComponent`: kept verbatim
if unreserved, otherwise every UTF-8 byte is percent-escaped. -/
def encChar (c : Char) : List Char :=
  if uriUnreserved c then [c] else (utf8Bytes c).flatMap pctByte

/-- Model of the platform primitive `encodeURIComponent` (a standard
library facility, out of scope for the repository itself): unreserved
characters pass through, everything else becomes percent-escaped UTF-8
bytes. -/
def encodeURIComponent (s : String) : String :=
  String.mk (s.data.flatMap encChar)

/-- `generateEmailString` (qrCode.ts lines 143-148): validates, then emits
`mailto:${email}?subject=${subject}&body=${body}` with the raw email and
percent-encoded subject and body (`data.subject || ''` is the identity on
strings, the empty string being falsy). -/
def generateEmailString (data : EmailData) : Except String String :=
  match validateEmailData data with
  | .error m => .error m
  | .ok _ =>
    .ok ("mailto:" ++ data.email ++ "?subject=" ++ encodeURIComponent data.subject ++
      "&body=" ++ encodeURIComponent data.body)

/-- `generateSMSString` (qrCode.ts lines 150-154): validates, then emits
`sms:${phone}${message ? `:${message}` : ''}` where `message` is the
percent-encoded message; the suffix is emitted iff that encoded string is
truthy (non-empty). -/
def generateSMSString (data : SMSData) : Except String String :=
  match validateSMSData data with
  | .error m => .error m
  | .ok _ =>
    let message := encodeURIComponent data.message
    .ok ("sms:" ++ data.phone ++ (if message = "" then "" else ":" ++ message))

/-- `field.replace(/([A-Z])/g, ' $1')`: a space is inserted before every
ASCII capital letter. -/
def expandCamel (s : String) : String :=
  String.mk (s.data.flatMap (fun c =>
    if 65 ≤ c.toNat ∧ c.toNat ≤ 90 then [' ', c] else [c]))

/-- JavaScript `toLowerCase` restricted to ASCII (the only inputs are the
ASCII field-name literals of the validator). -/
def toLowerAscii (s : String) : String :=
  String.mk (s.data.map (fun c =>
    if 65 ≤ c.toNat ∧ c.toNat ≤ 90 then Char.ofNat (c.toNat + 32) else c))

/-- The field-specific message of the phone-field loop:
``Please enter a valid ${field.replace(/([A-Z])/g, ' $1').toLowerCase()}``. -/
def phoneFieldMsg (field : String) : String :=
  "Please enter a valid " ++ toLowerAscii (expandCamel field)

/-- The `phoneFields.forEach` loop of `validateVCardData` (qrCode.ts lines
41-46), unrolled over (field name, field value) pairs in source order: a
truthy (non-empty) value failing the phone regex throws the field-specific
message. -/
def phoneFieldsCheck : List (String × String) → Except String Unit
  | [] => .ok ()
  | (name, value) :: rest =>
    if value ≠ "" ∧ phoneMatches value = false then .error (phoneFieldMsg name)
    else phoneFieldsCheck rest

/-- `validateVCardData` (qrCode.ts lines 32-47): name presence, then the
email format check, then the phone-field loop over
`['mobile', 'phone', 'workPhone', 'fax']`. -/
def validateVCardData (data : VCardData) : Except String Unit :=
  if jsTrim data.firstName = "" ∨ jsTrim data.lastName = "" then
    .error "Please enter both first and last name"
  else if data.email ≠ "" ∧ emailMatches data.email = false then
    .error "Please enter a valid email address"
  else
    phoneFieldsCheck [("mobile", data.mobile), ("phone", data.phone),
      ("workPhone", data.workPhone), ("fax", data.fax)]

/-- `address.replace(/;/g, '')`: all semicolons removed. -/
def removeSemis (s : String) : String :=
  String.mk (s.data.filter (fun c => !(c == ';')))

/-- `generateVCardString` (qrCode.ts lines 85-141): validates, then builds
the vCard by successive appends, one trimmed optional line per truthy
trimmed field, in source order. -/
def generateVCardString (data : VCardData) : Except String String :=
  match validateVCardData data with
  | .error m => .error m
  | .ok _ =>
    let v0 := "BEGIN:VCARD\nVERSION:3.0\nFN:" ++ jsTrim data.firstName ++ " " ++
      jsTrim data.lastName ++ "\nN:" ++ jsTrim data.lastName ++ ";" ++
      jsTrim data.firstName ++ ";;;"
    let v1 := if jsTrim data.email ≠ "" then v0 ++ ("\nEMAIL:" ++ jsTrim data.email) else v0
    let v2 := if jsTrim data.mobile ≠ "" then v1 ++ ("\nTEL;TYPE=CELL:" ++ jsTrim data.mobile) else v1
    let v3 := if jsTrim data.phone ≠ "" then v2 ++ ("\nTEL;TYPE=HOME:" ++ jsTrim data.phone) else v2
    let v4 := if jsTrim data.workPhone ≠ "" then v3 ++ ("\nTEL;TYPE=WORK:" ++ jsTrim data.workPhone) else v3
    let v5 := if jsTrim data.fax ≠ "" then v4 ++ ("\nTEL;TYPE=FAX:" ++ jsTrim data.fax) else v4
    let v6 := if jsTrim data.company ≠ "" then v5 ++ ("\nORG:" ++ jsTrim data.company) else v5
    let v7 := if jsTrim data.jobTitle ≠ "" then v6 ++ ("\nTITLE:" ++ jsTrim data.jobTitle) else v6
    let address := ";;" ++ jsTrim data.street ++ ";" ++ jsTrim data.city ++ ";" ++
      jsTrim data.state ++ ";" ++ jsTrim data.zip ++ ";" ++ jsTrim data.country
    let v8 := if removeSemis address ≠ "" then v7 ++ ("\nADR:" ++ address) else v7
    let v9 := if jsTrim data.website ≠ "" then v8 ++ ("\nURL:" ++ jsTrim data.website) else v8
    .ok (v9 ++ "\nEND:VCARD")

/-- ASCII letter. -/
def isAsciiAlpha (c : Char) : Bool :=
  (65 ≤ c.toNat && c.toNat ≤ 90) || (97 ≤ c.toNat && c.toNat ≤ 122)

/-- ASCII digit. -/
def isAsciiDigit (c : Char) : Bool :=
  48 ≤ c.toNat && c.toNat ≤ 57

/-- A character allowed after the first one in a URL scheme:
`[a-zA-Z0-9+.-]`. -/
def schemeChar (c : Char) : Bool :=
  isAsciiAlpha c || isAsciiDigit c || c == '+' || c == '-' || c == '.'

/-- Scans for the `:` ending a URL scheme; returns the scheme characters
read so far (reversed accumulator) and the remainder, or `none` when a
non-scheme character or the end of input is reached first. -/
def takeScheme : List Char → List Char → Option (List Char × List Char)
  | [], _ => none
  | c :: rest, acc =>
    if c == ':' then some (acc.reverse, rest)
    else if schemeChar c then takeScheme rest (c :: acc)
    else none

/-- Forbidden domain code points of the WHATWG URL standard (plus `%`,
which cannot survive domain-to-ASCII for the plain hosts modelled here):
a host containing one of these fails to parse. -/
def forbiddenHostChar (c : Char) : Bool :=
  c.toNat == 0 || c.toNat == 9 || c.toNat == 10 || c.toNat == 13 ||
  c == ' ' || c == '#' || c == '/' || c == ':' || c == '<' || c == '>' ||
  c == '?' || c == '@' || c == '[' || c == '\\' || c == ']' || c == '^' ||
  c == '|' || c == '%'

/-- Lower-cases one ASCII character (domain-to-ASCII normalization). -/
def lowerChar (c : Char) : Char :=
  if 65 ≤ c.toNat ∧ c.toNat ≤ 90 then Char.ofNat (c.toNat + 32) else c

/-- Parses a decimal port string; `none` on a non-digit. -/
def parsePort : List Char → Nat → Option Nat
  | [], acc => some acc
  | c :: rest, acc =>
    if isAsciiDigit c then parsePort rest (acc * 10 + (c.toNat - 48))
    else none

/-- Model of the platform WHATWG URL parser (`new URL(input)` followed by
`.toString()`), a standard library facility that the specification places
out of scope.  The model is restricted to what the module exercises:
absolute URLs with the special schemes `http` and `https`, no userinfo,
no query, no fragment, no dot-segment normalization (inputs with those
features are outside the model and map to `none`).  After the scheme, any
run of slashes is skipped; the authority extends to the first `/`; an
optional `:port` suffix of the authority is split off (an empty port is
dropped, a default port is elided); the host must be non-empty and free
of forbidden code points; an empty path serializes as `/`. -/
def newURL (input : String) : Option String :=
  match takeScheme input.data [] with
  | none => none
  | some (schemeCs, rest) =>
    match schemeCs with
    | [] => none
    | c0 :: _ =>
      if !isAsciiAlpha c0 then none
      else
        let scheme := String.mk (schemeCs.map lowerChar)
        if scheme ≠ "http" ∧ scheme ≠ "https" then none
        else
          let afterSlashes := rest.dropWhile (fun c => c == '/' || c == '\\')
          let authority := afterSlashes.takeWhile (fun c => !(c == '/'))
          let path := afterSlashes.dropWhile (fun c => !(c == '/'))
          let hostCs := authority.takeWhile (fun c => !(c == ':'))
          let portCs := (authority.dropWhile (fun c => !(c == ':'))).drop 1
          if hostCs.isEmpty then none
          else if hostCs.any forbiddenHostChar then none
          else
            let host := String.mk (hostCs.map lowerChar)
            let defaultPort := if scheme = "http" then 80 else 443
            let portOpt : Option String :=
              if portCs.isEmpty then some ""
              else match parsePort portCs 0 with
                | none => none
                | some p => some (if p = defaultPort then "" else ":" ++ toString p)
            match portOpt with
            | none => none
            | some portPart =>
              let pathStr := if path.isEmpty then "/" else String.mk path
              some (scheme ++ "://" ++ host ++ portPart ++ pathStr)

/-- `validateUrl` (qrCode.ts lines 13-30): trim; empty fails; otherwise
`new URL(trimmed)`, retried as `new URL('https://' + trimmed)`; both
failing raises the invalid-URL message; success returns the serialized
URL. -/
def validateUrl (url : String) : Except String String :=
  let trimmedUrl := jsTrim url
  if trimmedUrl = "" then .error "Please enter a URL"
  else
    match newURL trimmedUrl with
    | some s => .ok s
    | none =>
      match newURL ("https://" ++ trimmedUrl) with
      | some s => .ok s
      | none => .error "Please enter a valid website URL"

/-- Outcome of the external rasterizer call `QRCode.toDataURL` for one
input: fulfilled with a data URL, rejected with an `Error` carrying a
message, or rejected with a non-`Error` value. -/
inductive RasterResult where
  | ok (dataUrl : String)
  | errFail (msg : String)
  | nonErrFail

/-- The `switch (type)` dispatch inside the `try` block of
`generateQRCode` (qrCode.ts lines 169-191): produces the text payload for
the rasterizer, or the thrown validation/encoding error.  The `text` case
hands over `params.text` itself, not its trimmed form. -/
def dispatchData (ty : String) (params : QRCodeParams) : Except String String :=
  if ty = "url" then validateUrl params.url
  else if ty = "vcard" then generateVCardString params.vcardData
  else if ty = "email" then generateEmailString params.emailData
  else if ty = "sms" then generateSMSString params.smsData
  else if ty = "text" then
    match validateText params.text with
    | .error m => .error m
    | .ok _ => .ok params.text
  else if ty = "wifi" then generateWiFiString params.wifiData
  else .error "Invalid QR code type"

/-- `generateQRCode` (qrCode.ts lines 162-208), parametrized by the
behavior of the external rasterizer.  The second component records
whether the rasterizer was invoked.  The `catch` block rethrows any
`instanceof Error` value verbatim (validation, encoding, and `Error`
rasterizer failures alike) and replaces anything else by the generic
message. -/
def generateQRCode (ty : String) (params : QRCodeParams)
    (raster : String → RasterResult) : Except String String × Bool :=
  match dispatchData ty params with
  | .error m => (.error m, false)
  | .ok data =>
    match raster data with
    | .ok dataUrl => (.ok dataUrl, true)
    | .errFail m => (.error m, true)
    | .nonErrFail => (.error "Failed to generate QR code. Please try again.", true)

/-- The lines of a vCard text block: the string split on the newline
separator. -/
def linesOf (s : String) : List String :=
  (s.data.splitOn '\n').map String.mk

/-- A `VCardData` record with every field empty. -/
def emptyVCard : VCardData :=
  { firstName := "", lastName := "", mobile := "", phone := "", workPhone := "",
    fax := "", email := "", company := "", jobTitle := "", street := "",
    city := "", zip := "", state := "", country := "", website := "" }

/-- A `QRCodeParams` bundle with every slot empty. -/
def emptyParams : QRCodeParams :=
  { url := "", vcardData := emptyVCard, emailData := ⟨"", "", ""⟩,
    smsData := ⟨"", ""⟩, text := "", wifiData := ⟨"", "", .nopass, false⟩ }

/-- The parameter bundle with only the text slot populated. -/
def paramsText (t : String) : QRCodeParams :=
  { emptyParams with text := t }

/-- The contact of the specification example: Jane Doe with a mobile
number and no other optional fields. -/
def janeDoe : VCardData :=
  { emptyVCard with firstName := "Jane", lastName := "Doe", mobile := "+1 555-123-4567" }

/-- A contact populating every optional field, to exhibit the order of
the emitted optional lines. -/
def fullContact : VCardData :=
  { firstName := "A", lastName := "B", mobile := "1", phone := "2",
    workPhone := "3", fax := "4", email := "a@b.c", company := "C",
    jobTitle := "T", street := "S", city := "Y", zip := "Z", state := "ST",
    country := "CO", website := "W" }

/-- A contact with valid names and a malformed `workPhone` field. -/
def contactBadWorkPhone : VCardData :=
  { emptyVCard with firstName := "A", lastName := "B", workPhone := "@" }

/-- A contact whose `email` and `mobile` fields are both malformed. -/
def contactEmailAndMobileBad : VCardData :=
  { emptyVCard with firstName := "A", lastName := "B", mobile := "*", email := "no-at-sign" }

/-! Helper lemmas about the percent-encoding model. -/

/-- Every hexadecimal digit character is unreserved. -/
theorem uriUnreserved_hexDigit (n : Nat) : uriUnreserved (hexDigit n) = true := by
  have h16 : n % 16 < 16 := Nat.mod_lt _ (by decide)
  have hmem : hexDigit n ∈ hexDigits := by
    rw [hexDigit, List.getD_eq_getElem _ _ (by simpa [hexDigits] using h16)]
    exact List.getElem_mem _
  exact List.all_eq_true.mp (by decide) _ hmem

/-- Every character of a percent-encoded string is unreserved or the
percent sign. -/
theorem mem_encodeURIComponent {s : String} {c : Char}
    (h : c ∈ (encodeURIComponent s).data) :
    uriUnreserved c = true ∨ c = '%' := by
  have h' : c ∈ s.data.flatMap encChar := h
  rcases List.mem_flatMap.mp h' with ⟨a, _, hc⟩
  by_cases hu : uriUnreserved a = true
  · simp [encChar, hu] at hc
    subst hc
    exact Or.inl hu
  · simp [encChar, hu] at hc
    rcases hc with ⟨b, _, hcb⟩
    simp [pctByte] at hcb
    rcases hcb with h1 | h1 | h1 <;> subst h1
    · exact Or.inr rfl
    · exact Or.inl (uriUnreserved_hexDigit _)
    · exact Or.inl (uriUnreserved_hexDigit _)

/-- Unreserved characters lie in the printable ASCII range. -/
theorem uriUnreserved_range {c : Char} (h : uriUnreserved c = true) :
    33 ≤ c.toNat ∧ c.toNat ≤ 126 := by
  simp only [uriUnreserved, Bool.or_eq_true, Bool.and_eq_true,
    decide_eq_true_eq, beq_iff_eq] at h
  omega

/-- Every character of a percent-encoded string is printable ASCII. -/
theorem mem_encodeURIComponent_printable {s : String} {c : Char}
    (h : c ∈ (encodeURIComponent s).data) : 33 ≤ c.toNat ∧ c.toNat ≤ 126 := by
  rcases mem_encodeURIComponent h with h | h
  · exact uriUnreserved_range h
  · subst h
    decide

/-- UTF-8 encoding of a character is never empty. -/
theorem utf8Bytes_ne_nil (c : Char) : utf8Bytes c ≠ [] := by
  unfold utf8Bytes
  by_cases h1 : c.toNat < 128
  · simp [h1]
  · by_cases h2 : c.toNat < 2048
    · simp [h1, h2]
    · by_cases h3 : c.toNat < 65536
      · simp [h1, h2, h3]
      · simp [h1, h2, h3]

/-- Percent-encoding of a character is never empty. -/
theorem encChar_ne_nil (c : Char) : encChar c ≠ [] := by
  unfold encChar
  split
  · simp
  · intro hc
    rcases hb : utf8Bytes c with _ | ⟨b, bs⟩
    · exact utf8Bytes_ne_nil c hb
    · rw [hb] at hc
      simp [pctByte] at hc

/-- A percent-encoded string is empty exactly when its source is: the
truthiness test on the encoded message coincides with one on the raw
message. -/
theorem encodeURIComponent_eq_empty_iff (s : String) :
    encodeURIComponent s = "" ↔ s = "" := by
  constructor
  · intro h
    rcases s with ⟨l⟩
    cases l with
    | nil => rfl
    | cons c cs =>
      exfalso
      have hd := congrArg String.data h
      simp only [encodeURIComponent, List.flatMap_cons] at hd
      have : encChar c ++ cs.flatMap encChar = [] := hd
      exact encChar_ne_nil c (List.append_eq_nil.mp this).1

  · intro h
    subst h
    rfl

/-- Characters of a concrete character list are printable ASCII when a
decidable scan of the list says so. -/
theorem printable_of_mem_all {l : List Char}
    (hall : l.all (fun x => decide (33 ≤ x.toNat ∧ x.toNat ≤ 126)) = true)
    {c : Char} (hc : c ∈ l) : 33 ≤ c.toNat ∧ c.toNat ≤ 126 := by
  have := List.all_eq_true.mp hall c hc
  simpa using this

/-! Claim theorems. -/

/-- Claim C1, counterexample: the WiFi builder emits the ssid raw, so an
ssid with an interior newline (which passes validation, its trim being
non-empty) puts an unescaped control character into the encoded output,
refuting the claimed invariant. -/
theorem wifi_control_counterexample :
    generateWiFiString ⟨"a\nb", "", .nopass, false⟩ = .ok "WIFI:T:nopass;S:a\nb;P:;;" ∧
    Char.ofNat 10 ∈ "WIFI:T:nopass;S:a\nb;P:;;".data ∧ (Char.ofNat 10).toNat < 32 := by
  decide

/-- Claim C1, amended: the URI-scheme builders (mailto, sms) percent-encode
their embedded free-text fields, so any control character in their output
must come from the raw email or phone field; the builders emitting raw or
merely trimmed fields (notably WiFi ssid and password) do not enjoy the
claimed invariant. -/
theorem uri_builders_control (e : EmailData) (s : SMSData) (me ms : String)
    (he : generateEmailString e = .ok me) (hs : generateSMSString s = .ok ms) :
    (∀ c ∈ me.data, c.toNat < 32 ∨ c.toNat = 127 → c ∈ e.email.data) ∧
    (∀ c ∈ ms.data, c.toNat < 32 ∨ c.toNat = 127 → c ∈ s.phone.data) := by
  constructor
  · unfold generateEmailString at he
    rcases hv : validateEmailData e with m | u
    · rw [hv] at he
      exact absurd he (by simp)
    · rw [hv] at he
      injection he with hme
      subst hme
      intro c hc hctl
      simp only [String.data_append, List.mem_append] at hc
      rcases hc with (((((h1 | h1) | h1) | h1) | h1) | h1)
      · rcases printable_of_mem_all (by decide) h1 with ⟨hlo, hhi⟩
        omega
      · exact h1
      · rcases printable_of_mem_all (by decide) h1 with ⟨hlo, hhi⟩
        omega
      · rcases mem_encodeURIComponent_printable h1 with ⟨hlo, hhi⟩
        omega
      · rcases printable_of_mem_all (by decide) h1 with ⟨hlo, hhi⟩
        omega
      · rcases mem_encodeURIComponent_printable h1 with ⟨hlo, hhi⟩
        omega
  · unfold generateSMSString at hs
    rcases hv : validateSMSData s with m | u
    · rw [hv] at hs
      exact absurd hs (by simp)
    · rw [hv] at hs
      injection hs with hms
      subst hms
      intro c hc hctl
      by_cases hz : encodeURIComponent s.message = ""
      · rw [if_pos hz] at hc
        simp only [String.data_append, List.mem_append] at hc
        rcases hc with ((h1 | h1) | h1)
        · rcases printable_of_mem_all (by decide) h1 with ⟨hlo, hhi⟩
          omega
        · exact h1
        · simp at h1
      · rw [if_neg hz] at hc
        simp only [String.data_append, List.mem_append] at hc
        rcases hc with ((h1 | h1) | (h1 | h1))
        · rcases printable_of_mem_all (by decide) h1 with ⟨hlo, hhi⟩
          omega
        · exact h1
        · rcases printable_of_mem_all (by decide) h1 with ⟨hlo, hhi⟩
          omega
        · rcases mem_encodeURIComponent_printable h1 with ⟨hlo, hhi⟩
          omega

/-- Claim C1, witness for the amended theorem at concrete accepted
inputs. -/
theorem uri_builders_control_witness :
    (∀ c ∈ ("mailto:a@b.com?subject=Hi%20there&body=" : String).data,
      c.toNat < 32 ∨ c.toNat = 127 → c ∈ ("a@b.com" : String).data) ∧
    (∀ c ∈ ("sms:555-1234" : String).data,
      c.toNat < 32 ∨ c.toNat = 127 → c ∈ ("555-1234" : String).data) :=
  uri_builders_control ⟨"a@b.com", "Hi there", ""⟩ ⟨"555-1234", ""⟩
    "mailto:a@b.com?subject=Hi%20there&body=" "sms:555-1234" (by decide) (by decide)

/-- Claim C2, counterexample: a text with surrounding whitespace passes
validation, yet the payload handed on is the raw text, not its trimmed
form. -/
theorem text_counterexample :
    dispatchData "text" (paramsText " hi ") = .ok " hi " ∧
    jsTrim " hi " = "hi" ∧ (" hi " : String) ≠ "hi" := by decide

/-- Claim C2, amended: the plain-text kind fails with the documented
message exactly when the text is empty or whitespace-only; otherwise the
payload handed to the rasterizer is the original text verbatim, with its
surrounding whitespace intact (the trimming happens only inside the
validation test). -/
theorem text_payload (p : QRCodeParams) :
    (jsTrim p.text = "" → dispatchData "text" p = .error "Please enter some text") ∧
    (jsTrim p.text ≠ "" → dispatchData "text" p = .ok p.text) := by
  constructor
  · intro h
    simp [dispatchData, validateText, h]
  · intro h
    simp [dispatchData, validateText, h]

/-- Claim C2, witness at a concrete non-blank text. -/
theorem text_payload_witness :
    dispatchData "text" (paramsText " hi ") = .ok " hi " :=
  (text_payload (paramsText " hi ")).2 (by decide)

/-- Claim C3, counterexample: a malformed workPhone yields the message
with the expanded field name fully lower-cased, not the claimed
"work Phone" capitalization. -/
theorem workphone_counterexample :
    validateVCardData contactBadWorkPhone = .error "Please enter a valid work phone" ∧
    ("Please enter a valid work phone" : String) ≠ "Please enter a valid work Phone" := by
  decide

/-- Claim C3, amended: for a contact with valid names whose email check
passes, the first phone field in source order (mobile, phone, workPhone,
fax) that is present and fails the phone regex produces the field-specific
message, the camel-case field name being expanded to space-separated words
and then lower-cased, e.g. workPhone gives "Please enter a valid work
phone". -/
theorem phone_field_messages (d : VCardData)
    (hn : ¬(jsTrim d.firstName = "" ∨ jsTrim d.lastName = ""))
    (he : ¬(d.email ≠ "" ∧ emailMatches d.email = false)) :
    (d.mobile ≠ "" ∧ phoneMatches d.mobile = false →
      validateVCardData d = .error "Please enter a valid mobile") ∧
    (¬(d.mobile ≠ "" ∧ phoneMatches d.mobile = false) →
      d.phone ≠ "" ∧ phoneMatches d.phone = false →
      validateVCardData d = .error "Please enter a valid phone") ∧
    (¬(d.mobile ≠ "" ∧ phoneMatches d.mobile = false) →
      ¬(d.phone ≠ "" ∧ phoneMatches d.phone = false) →
      d.workPhone ≠ "" ∧ phoneMatches d.workPhone = false →
      validateVCardData d = .error "Please enter a valid work phone") ∧
    (¬(d.mobile ≠ "" ∧ phoneMatches d.mobile = false) →
      ¬(d.phone ≠ "" ∧ phoneMatches d.phone = false) →
      ¬(d.workPhone ≠ "" ∧ phoneMatches d.workPhone = false) →
      d.fax ≠ "" ∧ phoneMatches d.fax = false →
      validateVCardData d = .error "Please enter a valid fax") := by
  unfold validateVCardData
  rw [if_neg hn, if_neg he]
  refine ⟨fun h1 => ?_, fun n1 h2 => ?_, fun n1 n2 h3 => ?_, fun n1 n2 n3 h4 => ?_⟩ <;>
    simp only [phoneFieldsCheck] <;>
    first
      | (rw [if_pos h1]; rfl)
      | (rw [if_neg n1, if_pos h2]; rfl)
      | (rw [if_neg n1, if_neg n2, if_pos h3]; rfl)
      | (rw [if_neg n1, if_neg n2, if_neg n3, if_pos h4]; rfl)

/-- Claim C3, witness: a malformed fax field on an otherwise clean contact
produces the fax-specific message. -/
theorem phone_field_messages_witness :
    validateVCardData { emptyVCard with firstName := "C", lastName := "D", fax := "#55" } =
      .error "Please enter a valid fax" :=
  (phone_field_messages _ (by decide) (by decide)).2.2.2
    (by decide) (by decide) (by decide) (by decide)

/-- Claim C4, counterexample: a rasterizer failure carrying an Error
object is rethrown verbatim by the catch block, not normalized to the
generic message. -/
theorem raster_counterexample :
    generateQRCode "text" (paramsText "hello") (fun _ => .errFail "boom") =
      (.error "boom", true) ∧
    ("boom" : String) ≠ "Failed to generate QR code. Please try again." := by
  constructor
  · rfl
  · decide

/-- Claim C4, amended: validation and encoding errors propagate verbatim;
a rasterizer failure that is itself an Error instance also propagates
verbatim; only a non-Error thrown value is normalized to the generic
retry message. -/
theorem error_propagation (ty : String) (p : QRCodeParams) (raster : String → RasterResult) :
    (∀ m, dispatchData ty p = .error m → generateQRCode ty p raster = (.error m, false)) ∧
    (∀ d m, dispatchData ty p = .ok d → raster d = .errFail m →
      generateQRCode ty p raster = (.error m, true)) ∧
    (∀ d, dispatchData ty p = .ok d → raster d = .nonErrFail →
      generateQRCode ty p raster =
        (.error "Failed to generate QR code. Please try again.", true)) := by
  refine ⟨fun m h => ?_, fun d m h hr => ?_, fun d h hr => ?_⟩ <;>
    simp [generateQRCode, h] <;> rw [hr]

/-- Claim C4, witness: a non-Error rasterizer failure is normalized to the
generic message. -/
theorem error_propagation_witness :
    generateQRCode "text" (paramsText "hello") (fun _ => .nonErrFail) =
      (.error "Failed to generate QR code. Please try again.", true) :=
  (error_propagation "text" (paramsText "hello") (fun _ => .nonErrFail)).2.2
    "hello" (by decide) rfl

/-- Claim C5, counterexample: the input "http://" does not fail; the retry
parses "https://http://" with host "http" and an empty port, so validation
returns "https://http//". -/
theorem url_http_counterexample :
    validateUrl "http://" = .ok "https://http//" ∧
    validateUrl "http://" ≠ .error "Please enter a valid website URL" := by decide

/-- Claim C5, amended: URL validation trims the input and fails with the
enter-a-URL message exactly when the trimmed input is empty; a scheme-less
input such as "example.com" succeeds through the https retry and yields
the normalized "https://example.com/"; the input "http://" also succeeds,
yielding "https://http//"; an input failing both parse attempts, such as
"^", fails with the invalid-URL message. -/
theorem url_validation (u : String) :
    (jsTrim u = "" → validateUrl u = .error "Please enter a URL") ∧
    (validateUrl u = .error "Please enter a URL" → jsTrim u = "") ∧
    validateUrl "example.com" = .ok "https://example.com/" ∧
    validateUrl "  https://example.com  " = .ok "https://example.com/" ∧
    validateUrl "http://" = .ok "https://http//" ∧
    validateUrl "^" = .error "Please enter a valid website URL" := by
  refine ⟨fun h => ?_, fun h => ?_, by decide, by decide, by decide, by decide⟩
  · unfold validateUrl
    rw [if_pos h]
  · by_contra hne
    unfold validateUrl at h
    rw [if_neg hne] at h
    rcases h1 : newURL (jsTrim u) with _ | s
    · rw [h1] at h
      rcases h2 : newURL ("https://" ++ jsTrim u) with _ | s
      · rw [h2] at h
        simp at h
      · rw [h2] at h
        simp at h
    · rw [h1] at h
      simp at h

/-- Claim C5, witness: the empty input fails with the enter-a-URL
message. -/
theorem url_validation_witness :
    validateUrl "" = .error "Please enter a URL" :=
  (url_validation "").1 (by decide)

set_option maxRecDepth 16384 in
/-- Claim C6: the Jane Doe contact produces a vCard whose lines include
FN, structured N and the mobile TEL; a valid contact with no optional
fields produces exactly the four mandatory lines plus END:VCARD; a
contact with every optional field populated shows the optional lines in
the exact source order EMAIL, TEL CELL, TEL HOME, TEL WORK, TEL FAX, ORG,
TITLE, ADR, URL. -/
theorem vcard_output :
    (generateVCardString janeDoe =
        .ok "BEGIN:VCARD\nVERSION:3.0\nFN:Jane Doe\nN:Doe;Jane;;;\nTEL;TYPE=CELL:+1 555-123-4567\nEND:VCARD" ∧
      "FN:Jane Doe" ∈ linesOf "BEGIN:VCARD\nVERSION:3.0\nFN:Jane Doe\nN:Doe;Jane;;;\nTEL;TYPE=CELL:+1 555-123-4567\nEND:VCARD" ∧
      "N:Doe;Jane;;;" ∈ linesOf "BEGIN:VCARD\nVERSION:3.0\nFN:Jane Doe\nN:Doe;Jane;;;\nTEL;TYPE=CELL:+1 555-123-4567\nEND:VCARD" ∧
      "TEL;TYPE=CELL:+1 555-123-4567" ∈ linesOf "BEGIN:VCARD\nVERSION:3.0\nFN:Jane Doe\nN:Doe;Jane;;;\nTEL;TYPE=CELL:+1 555-123-4567\nEND:VCARD") ∧
    (∀ f l : String, jsTrim f ≠ "" → jsTrim l ≠ "" →
      generateVCardString { emptyVCard with firstName := f, lastName := l } =
        .ok ("BEGIN:VCARD\nVERSION:3.0\nFN:" ++ jsTrim f ++ " " ++ jsTrim l ++
          "\nN:" ++ jsTrim l ++ ";" ++ jsTrim f ++ ";;;" ++ "\nEND:VCARD")) ∧
    generateVCardString fullContact =
      .ok "BEGIN:VCARD\nVERSION:3.0\nFN:A B\nN:B;A;;;\nEMAIL:a@b.c\nTEL;TYPE=CELL:1\nTEL;TYPE=HOME:2\nTEL;TYPE=WORK:3\nTEL;TYPE=FAX:4\nORG:C\nTITLE:T\nADR:;;S;Y;ST;Z;CO\nURL:W\nEND:VCARD" := by
  refine ⟨⟨by decide, by decide, by decide, by decide⟩, ?_, by decide⟩
  intro f l hf hl
  have hval : validateVCardData { emptyVCard with firstName := f, lastName := l } = .ok () := by
    unfold validateVCardData
    rw [if_neg (not_or.mpr ⟨hf, hl⟩)]
    rfl
  unfold generateVCardString
  rw [hval]
  rfl

/-- Claim C6, witness for the minimal-contact component. -/
theorem vcard_output_witness :
    generateVCardString { emptyVCard with firstName := "Ann", lastName := "Lee" } =
      .ok ("BEGIN:VCARD\nVERSION:3.0\nFN:" ++ jsTrim "Ann" ++ " " ++ jsTrim "Lee" ++
        "\nN:" ++ jsTrim "Lee" ++ ";" ++ jsTrim "Ann" ++ ";;;" ++ "\nEND:VCARD") :=
  vcard_output.2.1 "Ann" "Lee" (by decide) (by decide)

/-- Claim C7: for every WiFi record accepted by validation (trimmed ssid
non-empty, and trimmed password non-empty unless encryption is nopass),
the encoder returns exactly the WIFI template, the H segment appearing
only when hidden, the raw password segment always emitted and the whole
terminated by two semicolons; in particular the nopass record with ssid
Home encodes to WIFI:T:nopass;S:Home;P:;; without failing. -/
theorem generateWiFiString_eq (d : WiFiData) (hs : jsTrim d.ssid ≠ "")
    (hp : d.encryption = .nopass ∨ jsTrim d.password ≠ "") :
    generateWiFiString d =
      .ok ("WIFI:T:" ++ d.encryption.str ++ ";S:" ++ d.ssid ++ ";P:" ++
        d.password ++ (if d.hidden then ";H:true" else "") ++ ";;") ∧
    generateWiFiString ⟨"Home", "", .nopass, false⟩ = .ok "WIFI:T:nopass;S:Home;P:;;" := by
  constructor
  · have hv : validateWiFiData d = .ok () := by
      unfold validateWiFiData
      rw [if_neg hs, if_neg]
      rcases hp with h | h
      · exact fun hc => hc.1 h
      · exact fun hc => h hc.2
    unfold generateWiFiString
    rw [hv]
  · decide

/-- Claim C7, witness at a hidden WPA network. -/
theorem generateWiFiString_witness :
    generateWiFiString ⟨"MyNet", "pw", Encryption.WPA, true⟩ =
      .ok ("WIFI:T:" ++ (Encryption.WPA).str ++ ";S:" ++ "MyNet" ++ ";P:" ++ "pw" ++
        (if (true : Bool) then ";H:true" else "") ++ ";;") :=
  (generateWiFiString_eq ⟨"MyNet", "pw", .WPA, true⟩ (by decide) (Or.inr (by decide))).1

/-- Claim C8, counterexample: a contact whose mobile and email are both
malformed reports the email error, although the claimed declared order
puts mobile before email. -/
theorem validation_order_counterexample :
    phoneMatches "*" = false ∧
    validateVCardData contactEmailAndMobileBad = .error "Please enter a valid email address" ∧
    ("Please enter a valid email address" : String) ≠ "Please enter a valid mobile" := by
  decide

/-- Claim C8, amended: validation is a fixed short-circuiting sequence
with required-presence checks before format checks, but for Contact the
email format check runs before the phone-field checks: the order is
names, email, mobile, phone, workPhone, fax; the SMS and WiFi validators
check presence before format. -/
theorem vcard_validation_order (d : VCardData) :
    (jsTrim d.firstName = "" ∨ jsTrim d.lastName = "" →
      validateVCardData d = .error "Please enter both first and last name") ∧
    (¬(jsTrim d.firstName = "" ∨ jsTrim d.lastName = "") →
      d.email ≠ "" ∧ emailMatches d.email = false →
      validateVCardData d = .error "Please enter a valid email address") ∧
    (¬(jsTrim d.firstName = "" ∨ jsTrim d.lastName = "") →
      ¬(d.email ≠ "" ∧ emailMatches d.email = false) →
      d.mobile ≠ "" ∧ phoneMatches d.mobile = false →
      validateVCardData d = .error "Please enter a valid mobile") ∧
    (∀ s : SMSData, jsTrim s.phone = "" →
      validateSMSData s = .error "Please enter a phone number") ∧
    (∀ w : WiFiData, jsTrim w.ssid = "" →
      validateWiFiData w = .error "Please enter a network name (SSID)") := by
  refine ⟨fun h => ?_, fun hn he => ?_, fun hn he hm => ?_,
    fun s h => ?_, fun w h => ?_⟩
  · unfold validateVCardData
    rw [if_pos h]
  · unfold validateVCardData
    rw [if_neg hn, if_pos he]
  · unfold validateVCardData
    rw [if_neg hn, if_neg he]
    simp only [phoneFieldsCheck]
    rw [if_pos hm]
    rfl
  · unfold validateSMSData
    rw [if_pos h]
  · unfold validateWiFiData
    rw [if_pos h]

/-- Claim C8, witness: an invalid email on a contact with valid names
reports the email message. -/
theorem vcard_validation_order_witness :
    validateVCardData { emptyVCard with firstName := "E", lastName := "F", email := "xyz" } =
      .error "Please enter a valid email address" :=
  (vcard_validation_order _).2.1 (by decide) (by decide)

/-- Claim C9: for every kind tag outside the six known ones, generate
fails with the invalid-type message and the rasterizer is never invoked
(the invocation flag of the model is false), whatever the rasterizer
would have done. -/
theorem unknown_type (ty : String) (p : QRCodeParams) (raster : String → RasterResult)
    (h : ty ∉ ["url", "vcard", "email", "sms", "text", "wifi"]) :
    generateQRCode ty p raster = (.error "Invalid QR code type", false) := by
  simp only [List.mem_cons, List.not_mem_nil, or_false, not_or] at h
  obtain ⟨h1, h2, h3, h4, h5, h6⟩ := h
  simp [generateQRCode, dispatchData, h1, h2, h3, h4, h5, h6]

/-- Claim C9, witness at the unknown tag "qr". -/
theorem unknown_type_witness :
    generateQRCode "qr" emptyParams (fun _ => .nonErrFail) =
      (.error "Invalid QR code type", false) :=
  unknown_type "qr" emptyParams (fun _ => .nonErrFail) (by decide)

/-- Claim C10: every phone accepted by the SMS validator consists solely
of characters of the permissive phone class (plus sign, digits,
whitespace, hyphen, parentheses), which excludes the colon; the emitted
string is sms: followed by the phone and, exactly when the message is
non-empty, a colon and the percent-encoded message, which is also
colon-free — so no colon occurs beyond the scheme separator and the
optional message separator. -/
theorem sms_invariants (d : SMSData) (h : validateSMSData d = .ok ()) :
    (∀ c ∈ d.phone.data, phoneChar c = true) ∧
    generateSMSString d = .ok ("sms:" ++ d.phone ++
      (if d.message = "" then "" else ":" ++ encodeURIComponent d.message)) ∧
    (':' ∉ d.phone.data) ∧ (':' ∉ (encodeURIComponent d.message).data) := by
  have hpm : phoneMatches d.phone = true := by
    unfold validateSMSData at h
    by_cases h1 : jsTrim d.phone = ""
    · rw [if_pos h1] at h
      exact absurd h (by simp)
    · rw [if_neg h1] at h
      by_cases h2 : phoneMatches d.phone = false
      · rw [if_pos h2] at h
        exact absurd h (by simp)
      · exact Bool.not_eq_false _ |>.mp h2
  have hall : ∀ c ∈ d.phone.data, phoneChar c = true := by
    have := hpm
    simp only [phoneMatches, Bool.and_eq_true, List.all_eq_true] at this
    exact this.2
  refine ⟨hall, ?_, ?_, ?_⟩
  · unfold generateSMSString
    rw [h]
    simp only [encodeURIComponent_eq_empty_iff]
  · intro hmem
    have := hall _ hmem
    exact absurd this (by decide)
  · intro hmem
    rcases mem_encodeURIComponent hmem with hu | hu
    · exact absurd hu (by decide)
    · exact absurd hu (by decide)

/-- Claim C10, witness: the specification example phone 555-1234 with an
empty message. -/
theorem sms_invariants_witness :
    (∀ c ∈ ("555-1234" : String).data, phoneChar c = true) ∧
    generateSMSString ⟨"555-1234", ""⟩ = .ok ("sms:" ++ "555-1234" ++
      (if ("" : String) = "" then "" else ":" ++ encodeURIComponent "")) ∧
    (':' ∉ ("555-1234" : String).data) ∧ (':' ∉ (encodeURIComponent "").data) :=
  sms_invariants ⟨"555-1234", ""⟩ (by decide)

end QrV2
